import Mathlib

/-!
Verification development for the OpenPecha translation-workflow repository.

The pipeline under study is the `tibetan_translator_v2` stage graph
(`workflow.py`): three fan-out commentary stages feed an `aggregator`,
which feeds `translation_generator`; `llm_call_evaluator` grades each
draft and `route_translation` decides between acceptance and another
synthesis round; accepted items run `generate_glossary`.  The outer
batch coordinator is `examples/batch_process.py`
(`run_robust_batch_processing`).

LLM ("Generation Port") outputs are non-deterministic, so every stage
that calls the port is parameterised by oracle values for those outputs
and additionally reports the list of port calls it performed.  State
deltas returned by stages are modelled as an `Update` record of optional
fields, merged into the shared state dictionary by `applyUpdate`.
-/

namespace TransWF

/-- Evaluation grades, from `Feedback.grade : Literal["bad","okay","good","great"]`
in `models.py`. -/
inductive Grade
  | bad
  | okay
  | good
  | great
deriving DecidableEq, Repr

/-- Printable form of a grade, used when the evaluator builds feedback strings. -/
def Grade.str : Grade → String
  | .bad => "bad"
  | .okay => "okay"
  | .good => "good"
  | .great => "great"

/-- The shared state dictionary threaded through the graph (`State` TypedDict in
`models.py`, together with the dynamically written `grade` /
`is_target_language` / `language_issues` / `iteration` keys the processors
read and write).  Python `None`-able string fields are `Option String`. -/
structure State where
  translation : List String
  plaintext_translation : String
  source : String
  sanskrit : String
  language : String
  feedback_history : List String
  format_feedback_history : List String
  commentary1 : Option String
  commentary2 : Option String
  commentary3 : Option String
  commentary1_translation : Option String
  commentary2_translation : Option String
  commentary3_translation : Option String
  combined_commentary : String
  commentary_source : String
  itteration : Nat
  iteration : Nat
  format_iteration : Nat
  formated : Bool
  grade : Grade
  is_target_language : Bool
  language_issues : String
  glossary : List String
deriving DecidableEq, Repr

/-- A state delta returned by one stage: each field is `some v` when the
stage's returned dict contains that key, `none` when the key is absent.
Note the two distinct keys `itteration` (the counter declared in the
`State` TypedDict and read by the router) and `iteration` (the key the
initial synthesis branch writes). -/
structure Update where
  uTranslation : Option (List String) := none
  uPlaintext : Option String := none
  uFeedbackHistory : Option (List String) := none
  uFormatFeedbackHistory : Option (List String) := none
  uItteration : Option Nat := none
  uIteration : Option Nat := none
  uFormatIteration : Option Nat := none
  uFormated : Option Bool := none
  uGrade : Option Grade := none
  uIsTargetLanguage : Option Bool := none
  uLanguageIssues : Option String := none
  uCombinedCommentary : Option String := none
  uCommentarySource : Option String := none
  uCommentary1 : Option (Option String) := none
  uCommentary2 : Option (Option String) := none
  uCommentary3 : Option (Option String) := none
  uCommentary1Translation : Option (Option String) := none
  uCommentary2Translation : Option (Option String) := none
  uCommentary3Translation : Option (Option String) := none
  uGlossary : Option (List String) := none
deriving DecidableEq, Repr

/-- Merge a stage delta into the state (the graph runtime's channel merge). -/
def applyUpdate (s : State) (u : Update) : State :=
  { translation := u.uTranslation.getD s.translation
    plaintext_translation := u.uPlaintext.getD s.plaintext_translation
    source := s.source
    sanskrit := s.sanskrit
    language := s.language
    feedback_history := u.uFeedbackHistory.getD s.feedback_history
    format_feedback_history := u.uFormatFeedbackHistory.getD s.format_feedback_history
    commentary1 := u.uCommentary1.getD s.commentary1
    commentary2 := u.uCommentary2.getD s.commentary2
    commentary3 := u.uCommentary3.getD s.commentary3
    commentary1_translation := u.uCommentary1Translation.getD s.commentary1_translation
    commentary2_translation := u.uCommentary2Translation.getD s.commentary2_translation
    commentary3_translation := u.uCommentary3Translation.getD s.commentary3_translation
    combined_commentary := u.uCombinedCommentary.getD s.combined_commentary
    commentary_source := u.uCommentarySource.getD s.commentary_source
    itteration := u.uItteration.getD s.itteration
    iteration := u.uIteration.getD s.iteration
    format_iteration := u.uFormatIteration.getD s.format_iteration
    formated := u.uFormated.getD s.formated
    grade := u.uGrade.getD s.grade
    is_target_language := u.uIsTargetLanguage.getD s.is_target_language
    language_issues := u.uLanguageIssues.getD s.language_issues
    glossary := u.uGlossary.getD s.glossary }

@[simp] theorem applyUpdate_itteration (s : State) (u : Update) :
    (applyUpdate s u).itteration = u.uItteration.getD s.itteration := rfl

@[simp] theorem applyUpdate_iteration (s : State) (u : Update) :
    (applyUpdate s u).iteration = u.uIteration.getD s.iteration := rfl

@[simp] theorem applyUpdate_format_iteration (s : State) (u : Update) :
    (applyUpdate s u).format_iteration = u.uFormatIteration.getD s.format_iteration := rfl

@[simp] theorem applyUpdate_feedback_history (s : State) (u : Update) :
    (applyUpdate s u).feedback_history = u.uFeedbackHistory.getD s.feedback_history := rfl

@[simp] theorem applyUpdate_grade (s : State) (u : Update) :
    (applyUpdate s u).grade = u.uGrade.getD s.grade := rfl

@[simp] theorem applyUpdate_formated (s : State) (u : Update) :
    (applyUpdate s u).formated = u.uFormated.getD s.formated := rfl

@[simp] theorem applyUpdate_translation (s : State) (u : Update) :
    (applyUpdate s u).translation = u.uTranslation.getD s.translation := rfl

@[simp] theorem applyUpdate_c1t (s : State) (u : Update) :
    (applyUpdate s u).commentary1_translation
      = u.uCommentary1Translation.getD s.commentary1_translation := rfl

@[simp] theorem applyUpdate_c2t (s : State) (u : Update) :
    (applyUpdate s u).commentary2_translation
      = u.uCommentary2Translation.getD s.commentary2_translation := rfl

@[simp] theorem applyUpdate_c3t (s : State) (u : Update) :
    (applyUpdate s u).commentary3_translation
      = u.uCommentary3Translation.getD s.commentary3_translation := rfl

/-- Python truthiness for an optional string: `not x` holds when the value is
`None` or the empty string. -/
def falsy (o : Option String) : Bool :=
  o.getD "" = ""

/-- The aggregator's notion of a usable upstream contribution:
`x not in [None, "", "None"]` (`commentary.py`, `aggregator`). -/
def hasContribution (o : Option String) : Bool :=
  !(o = none || o = some "" || o = some "None")

/-- How many of the three upstream contributions the aggregator counts as
usable. -/
def contributionCount (s : State) : Nat :=
  (if hasContribution s.commentary1_translation then 1 else 0) +
  (if hasContribution s.commentary2_translation then 1 else 0) +
  (if hasContribution s.commentary3_translation then 1 else 0)

/-- Names of Generation Port calls, used to trace which service calls a
stage performs. -/
inductive PortCall
  | langCheck
  | verifyCommentary
  | evaluate
  | sourceAnalysis
  | combineCommentaries
  | improveTranslation
  | extractTranslation
  | initialTranslation
  | plainTranslation
  | extractPlain
  | glossaryExtraction
deriving DecidableEq, Repr

/-! ## Fan-out commentary stages (`tibetan_translator/processors/commentary.py`)

Each `commentary_translator_N` builds a translation prompt but the service
invocations are commented out in the source; the function returns the
original commentary text unchanged (or `None`/`None` when the input
commentary is falsy).  No port call is ever issued, hence the empty trace. -/

/-- `commentary_translator_1`. -/
def commentary_translator_1 (s : State) : Update × List PortCall :=
  if falsy s.commentary1 then
    ({ uCommentary1 := some none, uCommentary1Translation := some none }, [])
  else
    ({ uCommentary1 := some s.commentary1,
       uCommentary1Translation := some s.commentary1 }, [])

/-- `commentary_translator_2`. -/
def commentary_translator_2 (s : State) : Update × List PortCall :=
  if falsy s.commentary2 then
    ({ uCommentary2 := some none, uCommentary2Translation := some none }, [])
  else
    ({ uCommentary2 := some s.commentary2,
       uCommentary2Translation := some s.commentary2 }, [])

/-- `commentary_translator_3`. -/
def commentary_translator_3 (s : State) : Update × List PortCall :=
  if falsy s.commentary3 then
    ({ uCommentary3 := some none, uCommentary3Translation := some none }, [])
  else
    ({ uCommentary3 := some s.commentary3,
       uCommentary3Translation := some s.commentary3 }, [])

/-- `aggregator` (`commentary.py` lines 71-147), parameterised by the oracle
outputs of its two possible Generation Port calls:
`sourceAnalysisOut` for `create_source_analysis` (one `llm_thinking` call)
and `combineOut` for the combination call. -/
def aggregator (sourceAnalysisOut combineOut : String) (s : State) :
    Update × List PortCall :=
  let has1 := hasContribution s.commentary1_translation
  let has2 := hasContribution s.commentary2_translation
  let has3 := hasContribution s.commentary3_translation
  let commentary_count :=
    (if has1 then 1 else 0) + (if has2 then 1 else 0) + (if has3 then 1 else 0)
  if commentary_count = 0 then
    ({ uCombinedCommentary := some sourceAnalysisOut,
       uCommentarySource := some "source_analysis" }, [PortCall.sourceAnalysis])
  else if commentary_count = 1 then
    if has1 then
      ({ uCombinedCommentary := some (s.commentary1_translation.getD ""),
         uCommentarySource := some "traditional" }, [])
    else if has2 then
      ({ uCombinedCommentary := some (s.commentary2_translation.getD ""),
         uCommentarySource := some "traditional" }, [])
    else
      ({ uCombinedCommentary := some (s.commentary3_translation.getD ""),
         uCommentarySource := some "traditional" }, [])
  else
    ({ uCombinedCommentary := some combineOut,
       uCommentarySource := some "traditional" }, [PortCall.combineCommentaries])

/-! ## Synthesis stage (`tibetan_translator_v2/processors/translation.py`) -/

/-- Oracle outputs for the Generation Port calls that
`translation_generator` can make in one run. -/
structure GenOut where
  improvedMsg : String
  extractedImproved : String
  initialContent : String
  thinkingContent : String
  plainContent : String
  extractedInitial : String
  extractedPlain : String
deriving DecidableEq, Repr

/-- `translation_generator` (lines 19-119).  The feedback branch (nonempty
`feedback_history`) makes two port calls and returns the appended draft and
the incremented `itteration` counter; the initial branch makes four port
calls and returns the first draft, the plain variant, the initial feedback
entry and the value `1` under the distinct key `iteration`. -/
def translation_generator (g : GenOut) (s : State) : Update × List PortCall :=
  let current_iteration := s.itteration
  if s.feedback_history ≠ [] then
    ({ uTranslation := some (s.translation ++ [g.extractedImproved]),
       uItteration := some (current_iteration + 1) },
     [PortCall.improveTranslation, PortCall.extractTranslation])
  else
    let feedback_entry :=
      s!"Iteration {current_iteration} - Initial Translation:\n{g.initialContent}\n"
        ++ (if g.thinkingContent ≠ "" then
              s!"\nTHINKING PROCESS:\n{g.thinkingContent}\n"
            else "")
    ({ uTranslation := some [g.extractedInitial],
       uPlaintext := some g.extractedPlain,
       uFeedbackHistory := some [feedback_entry],
       uIteration := some 1 },
     [PortCall.initialTranslation, PortCall.plainTranslation,
      PortCall.extractTranslation, PortCall.extractPlain])

/-! ## Evaluator stage (`tibetan_translator_v2/processors/evaluation.py`) -/

/-- Result of `check_translation_language` (`LanguageCheck` model). -/
structure LanguageCheck where
  is_target_language : Bool
  language_issues : String
deriving DecidableEq, Repr

/-- Result of the combined evaluation call (`Feedback` model). -/
structure Feedback where
  is_target_language : Bool
  language_issues : String
  grade : Grade
  feedback : String
  format_matched : Bool
  format_issues : String
deriving DecidableEq, Repr

/-- `llm_call_evaluator` (lines 25-95), parameterised by the oracle outcome
`lc` of the language check and `fb` of the full evaluation.  The wrong-language
branch returns after a single port call; otherwise the verification and
evaluation calls follow. -/
def llm_call_evaluator (lc : LanguageCheck) (fb : Feedback) (s : State) :
    Update × List PortCall :=
  if lc.is_target_language = false then
    let feedback_entry :=
      s!"Iteration {s.itteration} - LANGUAGE ERROR\n"
        ++ "In Target Language: False\n"
        ++ s!"Language Issues: {lc.language_issues}\n"
    ({ uIsTargetLanguage := some false,
       uLanguageIssues := some lc.language_issues,
       uGrade := some Grade.bad,
       uFormated := some false,
       uFeedbackHistory := some (s.feedback_history ++ [feedback_entry]) },
     [PortCall.langCheck])
  else
    let gs := fb.grade.str
    let feedback_entry :=
      s!"Iteration {s.itteration} - Grade: {gs}\n"
        ++ s!"In Target Language: {fb.is_target_language}\n"
        ++ s!"Format Matched: {fb.format_matched}\n"
        ++ (if fb.is_target_language = false then
              s!"Language Issues: {fb.language_issues}\n" else "")
        ++ (if fb.format_issues ≠ "" then
              s!"Format Issues: {fb.format_issues}\n" else "")
        ++ s!"Content Feedback: {fb.feedback}\n"
    ({ uIsTargetLanguage := some fb.is_target_language,
       uLanguageIssues := some fb.language_issues,
       uGrade := some fb.grade,
       uFormated := some fb.format_matched,
       uFeedbackHistory := some (s.feedback_history ++ [feedback_entry]),
       uFormatFeedbackHistory := some (s.format_feedback_history ++
         (if fb.format_issues ≠ "" then [fb.format_issues] else [])) },
     [PortCall.langCheck, PortCall.verifyCommentary, PortCall.evaluate])

/-! ## Router (`translation.py` lines 122-131) and configuration
(`tibetan_translator_v2/config.py`) -/

/-- `MAX_TRANSLATION_ITERATIONS = 3` (`config.py` line 28). -/
def MAX_TRANSLATION_ITERATIONS : Nat := 3

/-- `MAX_FORMAT_ITERATIONS = 1` (`config.py` line 32). -/
def MAX_FORMAT_ITERATIONS : Nat := 1

/-- `route_translation`: the edge label returned to the graph runtime. -/
def route_translation (s : State) : String :=
  if s.grade = Grade.great ∧ s.formated then "Accepted"
  else if s.itteration ≥ MAX_TRANSLATION_ITERATIONS then "Accepted"
  else "Rejected + Feedback"

/-- The three-way reading of `route_translation`'s branches: the first branch
is a true accept, the second the iteration-ceiling forced accept, the third a
retry.  The first two branches return the same `"Accepted"` edge label. -/
inductive RouteDecision
  | accept
  | forceAccept
  | retry
deriving DecidableEq, Repr

/-- Which branch of `route_translation` fires. -/
def routeDecision (s : State) : RouteDecision :=
  if s.grade = Grade.great ∧ s.formated then RouteDecision.accept
  else if s.itteration ≥ MAX_TRANSLATION_ITERATIONS then RouteDecision.forceAccept
  else RouteDecision.retry

/-- `generate_glossary` (`glossary.py`): stores the extracted entries and
re-asserts `plaintext_translation`; the counters are untouched. -/
def generate_glossary (entries : List String) (s : State) : Update × List PortCall :=
  ({ uGlossary := some entries,
     uPlaintext := some s.plaintext_translation },
   [PortCall.glossaryExtraction])

/-! ## The stage-graph loop (`tibetan_translator_v2/workflow.py`)

The compiled graph runs the three fan-out stages, the aggregator, then the
`translation_generator → llm_call_evaluator → route_translation` cycle until
the router returns `"Accepted"`, and finally `generate_glossary`.  The
evaluator and generator oracles are streams indexed by the round number. -/

/-- One synthesis/evaluation round: run `translation_generator`, merge its
delta, run `llm_call_evaluator`, merge its delta. -/
def loopStep (g : GenOut) (lc : LanguageCheck) (fb : Feedback) (s : State) : State :=
  let s1 := applyUpdate s (translation_generator g s).1
  applyUpdate s1 (llm_call_evaluator lc fb s1).1

/-- Run the generate/evaluate/route cycle.  `k` is the index of the current
round in the oracle streams, `fuel` bounds the number of rounds (the source
runs under `recursion_limit` 100).  On termination, returns the final state,
the branch of `route_translation` that ended the loop, and the number of
rounds executed (= number of `translation_generator` runs). -/
def runLoop (gens : Nat → GenOut) (lcs : Nat → LanguageCheck)
    (fbs : Nat → Feedback) : Nat → Nat → State →
    Option (State × RouteDecision × Nat)
  | _, 0, _ => none
  | k, fuel + 1, s =>
    let s' := loopStep (gens k) (lcs k) (fbs k) s
    match routeDecision s' with
    | RouteDecision.retry =>
        (runLoop gens lcs fbs (k + 1) fuel s').map
          (fun r => (r.1, r.2.1, r.2.2 + 1))
    | d => some (s', d, 1)

/-- The fan-out stages followed by the aggregator, sequentially merged (the
fan-out stages write disjoint keys, so sequential merging agrees with the
graph runtime's parallel merge). -/
def fanoutAgg (sourceAnalysisOut combineOut : String) (s0 : State) : State :=
  let s1 := applyUpdate s0 (commentary_translator_1 s0).1
  let s2 := applyUpdate s1 (commentary_translator_2 s1).1
  let s3 := applyUpdate s2 (commentary_translator_3 s2).1
  applyUpdate s3 (aggregator sourceAnalysisOut combineOut s3).1

/-- The full stage graph for one Work Item: fan-out stages, aggregator,
bounded generate/evaluate/route cycle, then the terminal glossary stage. -/
def runWorkflow (sourceAnalysisOut combineOut : String) (entries : List String)
    (gens : Nat → GenOut) (lcs : Nat → LanguageCheck) (fbs : Nat → Feedback)
    (fuel : Nat) (s0 : State) : Option (State × RouteDecision × Nat) :=
  match runLoop gens lcs fbs 0 fuel (fanoutAgg sourceAnalysisOut combineOut s0) with
  | none => none
  | some (s5, d, n) =>
      some (applyUpdate s5 (generate_glossary entries s5).1, d, n)

/-- The input dictionary the batch coordinator builds for one Work Item
(`batch_process.py` lines 109-123): empty histories, counters at zero,
`formated = False`, empty glossary.  Keys the example dict does not supply
(`translation`, `combined_commentary`, ...) start at their empty values. -/
def mkExample (source sanskrit : String) (c1 c2 c3 : Option String)
    (language : String) : State :=
  { translation := []
    plaintext_translation := ""
    source := source
    sanskrit := sanskrit
    language := language
    feedback_history := []
    format_feedback_history := []
    commentary1 := c1
    commentary2 := c2
    commentary3 := c3
    commentary1_translation := none
    commentary2_translation := none
    commentary3_translation := none
    combined_commentary := ""
    commentary_source := ""
    itteration := 0
    iteration := 0
    format_iteration := 0
    formated := false
    grade := Grade.bad
    is_target_language := true
    language_issues := ""
    glossary := [] }

/-! ## Batch Execution Coordinator (`examples/batch_process.py`)

`run_robust_batch_processing` chunks the input, retries each whole batch up
to `max_retries` times, and on exhaustion falls back to per-item processing,
each item again with up to `max_retries` attempts; successes are appended to
the `<run>.jsonl` sink, permanently failed items to `<run>_fail.jsonl`.
Workflow invocations are modelled by Boolean oracles (`true` = the attempt
succeeded); sink writes are modelled as list appends.  Attempt counts are
returned so the retry budgets actually consumed are observable. -/

/-- Index of the first successful attempt among `budget` attempts starting at
attempt number `k`, following oracle `f`. -/
def firstSuccess (f : Nat → Bool) : Nat → Nat → Option Nat
  | 0, _ => none
  | b + 1, k => if f k then some k else firstSuccess f b (k + 1)

/-- How many attempts a `while not success and retries < budget` loop with
outcome oracle `f` performs. -/
def attemptsMade (f : Nat → Bool) (budget : Nat) : Nat :=
  match firstSuccess f budget 0 with
  | some k => k + 1
  | none => budget

/-- Individual processing of one item in the degraded path
(`batch_process.py` lines 165-195): up to `budget` attempts; `f a` is the
outcome of the whole retried `try` block of attempt `a` (the single-item
workflow call followed by its success-sink write — a failing write
serialises nothing, so the attempt fails with nothing appended).  On the
first successful attempt the item is written to the success sink, on
exhaustion (with at least one attempt made) to the failure sink.  Returns
(success writes, failure writes, attempts made). -/
def processItem {α : Type} (f : Nat → Bool) (budget : Nat) (item : α) :
    List α × List α × Nat :=
  if budget = 0 then ([], [], 0)
  else
    match firstSuccess f budget 0 with
    | some k => ([item], [], k + 1)
    | none => ([], [item], budget)

/-- Degraded per-item pass over a batch, in input order.  `iOr i` is the
outcome oracle for the item at position `i` of the batch. -/
def individualPass {α : Type} (iOr : Nat → Nat → Bool) (budget : Nat) :
    Nat → List α → List α × List α × List Nat
  | _, [] => ([], [], [])
  | i, a :: rest =>
    let r := processItem (iOr i) budget a
    let rs := individualPass iOr budget (i + 1) rest
    (r.1 ++ rs.1, r.2.1 ++ rs.2.1, r.2.2 :: rs.2.2)

/-- One attempt's write pass over the batch results inside the retried `try`
block (`batch_process.py` lines 144-146): results are written to the success
sink one by one; `convert_state_to_jsonl` serialises before writing and
re-raises on failure, so a failing write appends nothing and aborts the
attempt, while the prefix already written stays durable in the `.jsonl`.
`w i` is the outcome of the write of the item at position `i`.  Returns the
durably written prefix and whether every write succeeded. -/
def writePrefix {α : Type} (w : Nat → Bool) : Nat → List α → List α × Bool
  | _, [] => ([], true)
  | i, a :: rest =>
    if w i then
      let r := writePrefix w (i + 1) rest
      (a :: r.1, r.2)
    else ([], false)

/-- The batch-level retry loop (`batch_process.py` lines 137-159): attempt
`a` runs the batched workflow call (outcome `bOr a`); if it succeeds, the
results are written item-by-item with outcomes `wOr a`.  A workflow failure
writes nothing; a write failure leaves the already-written prefix in the
success sink and the attempt counts as failed.  Writes accumulate across
attempts (the sink is append-only).  Returns
(success-sink writes, `batch_success`, attempts made). -/
def batchAttemptsLoop {α : Type} (bOr : Nat → Bool) (wOr : Nat → Nat → Bool)
    (batch : List α) : Nat → Nat → List α × Bool × Nat
  | _, 0 => ([], false, 0)
  | a, fuel + 1 =>
    if bOr a then
      let w := writePrefix (wOr a) 0 batch
      if w.2 then (w.1, true, 1)
      else
        let rest := batchAttemptsLoop bOr wOr batch (a + 1) fuel
        (w.1 ++ rest.1, rest.2.1, rest.2.2 + 1)
    else
      let rest := batchAttemptsLoop bOr wOr batch (a + 1) fuel
      (rest.1, rest.2.1, rest.2.2 + 1)

/-- Processing of one batch (`batch_process.py` lines 132-195): the batch is
attempted up to `maxRetries` times, each successful workflow call writing
its results item-by-item (a mid-batch write failure keeps the prefix and
fails the attempt); if no attempt completes, every item is processed
individually.  Returns
(success writes, failure writes, batch attempts made, per-item attempts). -/
def processBatch {α : Type} (bOr : Nat → Bool) (wOr : Nat → Nat → Bool)
    (iOr : Nat → Nat → Bool) (maxRetries : Nat) (batch : List α) :
    List α × List α × Nat × List Nat :=
  let b := batchAttemptsLoop bOr wOr batch 0 maxRetries
  if b.2.1 then (b.1, [], b.2.2, [])
  else
    let r := individualPass iOr maxRetries 0 batch
    (b.1 ++ r.1, r.2.1, b.2.2, r.2.2)

/-- `batches = [examples[i:i+batch_size] for i in range(0, len, batch_size)]`,
with the list length as recursion fuel. -/
def chunksAux {α : Type} : Nat → Nat → List α → List (List α)
  | 0, _, _ => []
  | _ + 1, _, [] => []
  | fuel + 1, b, a :: l =>
    (a :: l).take b :: chunksAux fuel b ((a :: l).drop b)

/-- Partition a list into consecutive batches of size `b`. -/
def chunks {α : Type} (b : Nat) (l : List α) : List (List α) :=
  chunksAux l.length b l

/-- The `for batch_idx, batch in enumerate(batches)` loop of
`run_robust_batch_processing`: batches processed in order, each batch's
success and failure writes appended to the respective sink in order. -/
def coordGo {α : Type} (bOr : Nat → Nat → Bool) (wOr : Nat → Nat → Nat → Bool)
    (iOr : Nat → Nat → Nat → Bool) (maxRetries : Nat) : Nat → List (List α) →
    List α × List α × List Nat × List (List Nat)
  | _, [] => ([], [], [], [])
  | bi, b :: rest =>
    let r := processBatch (bOr bi) (wOr bi) (iOr bi) maxRetries b
    let rs := coordGo bOr wOr iOr maxRetries (bi + 1) rest
    (r.1 ++ rs.1, r.2.1 ++ rs.2.1, r.2.2.1 :: rs.2.2.1, r.2.2.2 :: rs.2.2.2)

/-- `run_robust_batch_processing` (lines 85-198): chunk the data, process
each batch with cascading batch→item retries, and accumulate the two sinks
in batch order.  `bOr bi a` is the outcome of the batched workflow call of
attempt `a` on batch `bi`; `wOr bi a i` the outcome of the success-sink
write of item `i` during that attempt; `iOr bi i a` the outcome of the whole
individual try block (workflow call plus write) of attempt `a` on item `i`
of batch `bi`.  Returns (success sink, failure sink, per-batch attempt
counts, per-batch per-item attempt counts). -/
def run_robust_batch_processing {α : Type} (bOr : Nat → Nat → Bool)
    (wOr : Nat → Nat → Nat → Bool) (iOr : Nat → Nat → Nat → Bool)
    (batchSize maxRetries : Nat)
    (data : List α) : List α × List α × List Nat × List (List Nat) :=
  coordGo bOr wOr iOr maxRetries 0 (chunks batchSize data)

/-! ## Fallible-port views of the Executor's stages (error handling)

To study the transient-failure policy, the same stage bodies are re-read
with every Generation Port call allowed to raise: each call slot of the
port is an `Except Unit` outcome.  Only `verify_against_commentary` inside
`llm_call_evaluator` sits in a `try/except` (`evaluation.py` lines 50-62):
its first failure triggers one immediate unprotected re-invocation, so the
port carries two outcome slots for it.  No other call site in
`evaluation.py` or `translation.py` is wrapped. -/

instance {ε α : Type} [DecidableEq ε] [DecidableEq α] :
    DecidableEq (Except ε α) := fun a b =>
  match a, b with
  | Except.error e, Except.error f => decidable_of_iff (e = f) (by simp)
  | Except.error _, Except.ok _ => Decidable.isFalse (fun h => nomatch h)
  | Except.ok _, Except.error _ => Decidable.isFalse (fun h => nomatch h)
  | Except.ok x, Except.ok y => decidable_of_iff (x = y) (by simp)

/-- `CommentaryVerification` (`models.py`); its content is only interpolated
into the subsequent evaluation prompt. -/
structure CommentaryVerification where
  matches_commentary : Bool
  missing_concepts : String
  misinterpretations : String
  context_accuracy : String
deriving DecidableEq, Repr

/-- Outcomes of the port calls `llm_call_evaluator` can make, each
`Except Unit`: `verifyFirst` is the outcome of the protected first
`verify_against_commentary` invocation, `verifyRetry` of the unprotected
re-invocation in the `except` handler. -/
structure EvalPortE where
  langCheck : Except Unit LanguageCheck
  verifyFirst : Except Unit CommentaryVerification
  verifyRetry : Except Unit CommentaryVerification
  evaluateCall : Except Unit Feedback
deriving DecidableEq, Repr

/-- `llm_call_evaluator` over a fallible port: returns the stage delta or a
propagated failure, together with the trace of port calls actually made. -/
def llm_call_evaluatorE (p : EvalPortE) (s : State) :
    Except Unit Update × List PortCall :=
  match p.langCheck with
  | Except.error e => (Except.error e, [PortCall.langCheck])
  | Except.ok lc =>
    if lc.is_target_language = false then
      ((llm_call_evaluator lc { is_target_language := true, language_issues := ""
                                grade := Grade.bad, feedback := ""
                                format_matched := false, format_issues := "" } s).1
        |> Except.ok,
       [PortCall.langCheck])
    else
      match p.verifyFirst with
      | Except.ok _ =>
        match p.evaluateCall with
        | Except.error e =>
          (Except.error e,
           [PortCall.langCheck, PortCall.verifyCommentary, PortCall.evaluate])
        | Except.ok fb =>
          (Except.ok (llm_call_evaluator lc fb s).1,
           [PortCall.langCheck, PortCall.verifyCommentary, PortCall.evaluate])
      | Except.error _ =>
        match p.verifyRetry with
        | Except.error e =>
          (Except.error e,
           [PortCall.langCheck, PortCall.verifyCommentary,
            PortCall.verifyCommentary])
        | Except.ok _ =>
          match p.evaluateCall with
          | Except.error e =>
            (Except.error e,
             [PortCall.langCheck, PortCall.verifyCommentary,
              PortCall.verifyCommentary, PortCall.evaluate])
          | Except.ok fb =>
            (Except.ok (llm_call_evaluator lc fb s).1,
             [PortCall.langCheck, PortCall.verifyCommentary,
              PortCall.verifyCommentary, PortCall.evaluate])

/-- Outcomes of the port calls `translation_generator` can make, each
`Except Unit`; none of its call sites is protected by a `try/except`. -/
structure GenPortE where
  improveMsg : Except Unit String
  extractImproved : Except Unit String
  initialThinking : Except Unit (String × String)
  plainMsg : Except Unit String
  extractInitial : Except Unit String
  extractPlain : Except Unit String
deriving DecidableEq, Repr

/-- `translation_generator` over a fallible port: any failing call propagates
at once (no retry).  Calls are made in source order. -/
def translation_generatorE (p : GenPortE) (s : State) :
    Except Unit Update × List PortCall :=
  if s.feedback_history ≠ [] then
    match p.improveMsg with
    | Except.error e => (Except.error e, [PortCall.improveTranslation])
    | Except.ok _ =>
      match p.extractImproved with
      | Except.error e =>
        (Except.error e, [PortCall.improveTranslation, PortCall.extractTranslation])
      | Except.ok t =>
        (Except.ok { uTranslation := some (s.translation ++ [t])
                     uItteration := some (s.itteration + 1) },
         [PortCall.improveTranslation, PortCall.extractTranslation])
  else
    match p.initialThinking with
    | Except.error e => (Except.error e, [PortCall.initialTranslation])
    | Except.ok tc =>
      match p.plainMsg with
      | Except.error e =>
        (Except.error e, [PortCall.initialTranslation, PortCall.plainTranslation])
      | Except.ok _ =>
        match p.extractInitial with
        | Except.error e =>
          (Except.error e,
           [PortCall.initialTranslation, PortCall.plainTranslation,
            PortCall.extractTranslation])
        | Except.ok t0 =>
          match p.extractPlain with
          | Except.error e =>
            (Except.error e,
             [PortCall.initialTranslation, PortCall.plainTranslation,
              PortCall.extractTranslation, PortCall.extractPlain])
          | Except.ok tp =>
            let feedback_entry :=
              s!"Iteration {s.itteration} - Initial Translation:\n{tc.1}\n"
                ++ (if tc.2 ≠ "" then s!"\nTHINKING PROCESS:\n{tc.2}\n" else "")
            (Except.ok { uTranslation := some [t0]
                         uPlaintext := some tp
                         uFeedbackHistory := some [feedback_entry]
                         uIteration := some 1 },
             [PortCall.initialTranslation, PortCall.plainTranslation,
              PortCall.extractTranslation, PortCall.extractPlain])

/-! ## Concrete inputs used by witnesses and counterexamples -/

/-- A fixed oracle for the generator's port calls. -/
def okayGen : GenOut :=
  ⟨"improve the draft", "draft v2", "initial draft", "", "plain draft",
   "draft v1", "plain v1"⟩

/-- A language check that passes. -/
def lcInTarget : LanguageCheck := ⟨true, ""⟩

/-- An evaluation verdict that grades `okay` and rejects the format. -/
def okayVerdict : Feedback := ⟨true, "", Grade.okay, "tighten terminology", false, ""⟩

/-- An evaluation verdict that grades `great` with matching format. -/
def greatVerdict : Feedback := ⟨true, "", Grade.great, "", true, ""⟩

/-- A freshly constructed Work Item with one commentary. -/
def scenarioItem : State := mkExample "source text" "skt" (some "comm1") none none "English"

/-- A state in the middle of the loop: one feedback entry already recorded. -/
def midLoopItem : State :=
  { scenarioItem with feedback_history := ["prior feedback"], translation := ["draft v1"] }

/-! ## Helper lemmas about the loop -/

/-- More fuel never changes a completed run of the cycle. -/
theorem runLoop_fuel_mono (gens : Nat → GenOut) (lcs : Nat → LanguageCheck)
    (fbs : Nat → Feedback) :
    ∀ (fuel fuel' k : Nat) (s : State) (r : State × RouteDecision × Nat),
      runLoop gens lcs fbs k fuel s = some r → fuel ≤ fuel' →
      runLoop gens lcs fbs k fuel' s = some r := by
  intro fuel
  induction fuel with
  | zero => intro fuel' k s r h; simp [runLoop] at h
  | succ n ih =>
    intro fuel' k s r h hle
    obtain ⟨m, rfl⟩ : ∃ m, fuel' = m + 1 :=
      ⟨fuel' - 1, by omega⟩
    rw [runLoop] at h ⊢
    rcases hd : routeDecision (loopStep (gens k) (lcs k) (fbs k) s) with _ | _ | _ <;>
      rw [hd] at h
    · exact h
    · exact h
    · have h' : (runLoop gens lcs fbs (k + 1) n
          (loopStep (gens k) (lcs k) (fbs k) s)).map
          (fun r => (r.1, r.2.1, r.2.2 + 1)) = some r := h
      show (runLoop gens lcs fbs (k + 1) m
          (loopStep (gens k) (lcs k) (fbs k) s)).map
          (fun r => (r.1, r.2.1, r.2.2 + 1)) = some r
      cases hr : runLoop gens lcs fbs (k + 1) n
          (loopStep (gens k) (lcs k) (fbs k) s) with
      | none => rw [hr] at h'; exact absurd h' (by simp)
      | some r0 =>
        rw [ih m (k + 1) _ r0 hr (by omega)]
        rw [hr] at h'
        exact h'

/-- The evaluator's delta never carries the `itteration` key. -/
theorem eval_uItteration (lc : LanguageCheck) (fb : Feedback) (s : State) :
    (llm_call_evaluator lc fb s).1.uItteration = none := by
  simp only [llm_call_evaluator]; split <;> rfl

/-- The evaluator's delta never carries the `format_iteration` key. -/
theorem eval_uFormatIteration (lc : LanguageCheck) (fb : Feedback) (s : State) :
    (llm_call_evaluator lc fb s).1.uFormatIteration = none := by
  simp only [llm_call_evaluator]; split <;> rfl

/-- The evaluator appends exactly one entry to `feedback_history` in both of
its branches. -/
theorem eval_appends_one (lc : LanguageCheck) (fb : Feedback) (s : State) :
    ∃ e, (llm_call_evaluator lc fb s).1.uFeedbackHistory
      = some (s.feedback_history ++ [e]) := by
  simp only [llm_call_evaluator]; split
  · exact ⟨_, rfl⟩
  · exact ⟨_, rfl⟩

/-- Frame facts for one generate/evaluate round: `format_iteration` is
untouched, `itteration` grows by one exactly on feedback-driven rounds, the
feedback history grows by one entry beyond the initial entry, and is
nonempty afterwards. -/
theorem loopStep_spec (g : GenOut) (lc : LanguageCheck) (fb : Feedback)
    (s : State) :
    (loopStep g lc fb s).format_iteration = s.format_iteration ∧
    ((loopStep g lc fb s).itteration
      = if s.feedback_history = [] then s.itteration else s.itteration + 1) ∧
    ((loopStep g lc fb s).feedback_history.length
      = if s.feedback_history = [] then 2 else s.feedback_history.length + 1) ∧
    (loopStep g lc fb s).feedback_history ≠ [] := by
  unfold loopStep
  obtain ⟨e, he⟩ := eval_appends_one lc fb (applyUpdate s (translation_generator g s).1)
  by_cases hfb : s.feedback_history = [] <;>
    simp [translation_generator, hfb, eval_uItteration, eval_uFormatIteration,
      he] <;>
    simp [translation_generator, hfb] at he <;>
    simp [he]

/-- The retry branch of the router only fires below the iteration ceiling. -/
theorem routeDecision_retry_lt (s : State) :
    routeDecision s = RouteDecision.retry →
    s.itteration < MAX_TRANSLATION_ITERATIONS := by
  unfold routeDecision
  split_ifs with h1 h2 <;> intro h
  · cases h
  · cases h
  · exact Nat.lt_of_not_le h2

/-- Invariant preservation along the cycle: starting below the ceiling with a
nonempty feedback history, any completed run ends with the counter at most 3,
`format_iteration` unchanged, and the history-length relation
`len = itteration + 2` preserved. -/
theorem runLoop_inv (gens : Nat → GenOut) (lcs : Nat → LanguageCheck)
    (fbs : Nat → Feedback) :
    ∀ (fuel k : Nat) (s : State) (r : State × RouteDecision × Nat),
      runLoop gens lcs fbs k fuel s = some r →
      s.feedback_history ≠ [] → s.itteration < 3 →
      (r.1.itteration ≤ 3 ∧ r.1.format_iteration = s.format_iteration ∧
        (s.feedback_history.length = s.itteration + 2 →
          r.1.feedback_history.length = r.1.itteration + 2)) := by
  intro fuel
  induction fuel with
  | zero => intro k s r h; simp [runLoop] at h
  | succ n ih =>
    intro k s r h hfb hit
    rw [runLoop] at h
    obtain ⟨hfmt, hitr, hlen, hne⟩ := loopStep_spec (gens k) (lcs k) (fbs k) s
    rw [if_neg hfb] at hitr hlen
    rcases hd : routeDecision (loopStep (gens k) (lcs k) (fbs k) s) with _ | _ | _ <;>
      rw [hd] at h
    · obtain rfl : (loopStep (gens k) (lcs k) (fbs k) s,
          RouteDecision.accept, 1) = r := Option.some.inj h
      exact ⟨by dsimp only; omega, by dsimp only; exact hfmt,
        fun hl => by dsimp only; omega⟩
    · obtain rfl : (loopStep (gens k) (lcs k) (fbs k) s,
          RouteDecision.forceAccept, 1) = r := Option.some.inj h
      exact ⟨by dsimp only; omega, by dsimp only; exact hfmt,
        fun hl => by dsimp only; omega⟩
    · have h' : (runLoop gens lcs fbs (k + 1) n
          (loopStep (gens k) (lcs k) (fbs k) s)).map
          (fun r => (r.1, r.2.1, r.2.2 + 1)) = some r := h
      cases hr : runLoop gens lcs fbs (k + 1) n
          (loopStep (gens k) (lcs k) (fbs k) s) with
      | none => rw [hr] at h'; exact absurd h' (by simp)
      | some r0 =>
        rw [hr] at h'
        obtain rfl : (r0.1, r0.2.1, r0.2.2 + 1) = r := Option.some.inj h'
        have hlt := routeDecision_retry_lt _ hd
        rw [MAX_TRANSLATION_ITERATIONS] at hlt
        obtain ⟨b1, b2, b3⟩ := ih (k + 1) _ r0 hr hne hlt
        exact ⟨b1, by rw [b2, hfmt], fun hl => b3 (by omega)⟩

/-- Termination of the cycle: with a nonempty feedback history and enough
fuel to reach the ceiling, the run completes. -/
theorem runLoop_terminates (gens : Nat → GenOut) (lcs : Nat → LanguageCheck)
    (fbs : Nat → Feedback) :
    ∀ (fuel k : Nat) (s : State),
      s.feedback_history ≠ [] → 3 ≤ s.itteration + fuel →
      (runLoop gens lcs fbs k (fuel + 1) s).isSome := by
  intro fuel
  induction fuel with
  | zero =>
    intro k s hfb hge
    rw [runLoop]
    obtain ⟨hfmt, hitr, hlen, hne⟩ := loopStep_spec (gens k) (lcs k) (fbs k) s
    rw [if_neg hfb] at hitr
    rcases hd : routeDecision (loopStep (gens k) (lcs k) (fbs k) s) with _ | _ | _
    · simp
    · simp
    · have hlt := routeDecision_retry_lt _ hd
      rw [MAX_TRANSLATION_ITERATIONS] at hlt
      omega
  | succ n ih =>
    intro k s hfb hge
    rw [runLoop]
    obtain ⟨hfmt, hitr, hlen, hne⟩ := loopStep_spec (gens k) (lcs k) (fbs k) s
    rw [if_neg hfb] at hitr
    rcases hd : routeDecision (loopStep (gens k) (lcs k) (fbs k) s) with _ | _ | _
    · simp
    · simp
    · have := ih (k + 1) (loopStep (gens k) (lcs k) (fbs k) s) hne (by omega)
      cases hr : runLoop gens lcs fbs (k + 1) (n + 1)
          (loopStep (gens k) (lcs k) (fbs k) s) with
      | none => rw [hr] at this; simp at this
      | some r0 => simp [hr]

/-- A run started on a fresh Work Item (empty history, counter 0) with fuel 5
completes, ends with the counter at most 3, leaves `format_iteration`
unchanged, and satisfies `len (feedback_history) = itteration + 2`. -/
theorem runLoop_fresh (gens : Nat → GenOut) (lcs : Nat → LanguageCheck)
    (fbs : Nat → Feedback) (k : Nat) (s : State)
    (hfb : s.feedback_history = []) (hit : s.itteration = 0) :
    ∃ r, runLoop gens lcs fbs k 5 s = some r ∧
      r.1.itteration ≤ 3 ∧ r.1.format_iteration = s.format_iteration ∧
      r.1.feedback_history.length = r.1.itteration + 2 := by
  rw [show (5 : Nat) = 4 + 1 from rfl, runLoop]
  obtain ⟨hfmt, hitr, hlen, hne⟩ := loopStep_spec (gens k) (lcs k) (fbs k) s
  rw [if_pos hfb] at hitr hlen
  rcases hd : routeDecision (loopStep (gens k) (lcs k) (fbs k) s) with _ | _ | _
  · exact ⟨_, rfl, by dsimp only; omega, by dsimp only; exact hfmt,
      by dsimp only; omega⟩
  · exact ⟨_, rfl, by dsimp only; omega, by dsimp only; exact hfmt,
      by dsimp only; omega⟩
  · have hterm := runLoop_terminates gens lcs fbs 3 (k + 1)
      (loopStep (gens k) (lcs k) (fbs k) s) hne (by omega)
    cases hr : runLoop gens lcs fbs (k + 1) (3 + 1)
        (loopStep (gens k) (lcs k) (fbs k) s) with
    | none => rw [hr] at hterm; simp at hterm
    | some r0 =>
      have hlt := routeDecision_retry_lt _ hd
      rw [MAX_TRANSLATION_ITERATIONS] at hlt
      obtain ⟨b1, b2, b3⟩ := runLoop_inv gens lcs fbs (3 + 1) (k + 1) _ r0 hr
        hne (by omega)
      exact ⟨(r0.1, r0.2.1, r0.2.2 + 1), rfl, b1,
        by rw [b2, hfmt], b3 (by omega)⟩

/-- Frame facts for `commentary_translator_1`: neither counter nor the
feedback history is in its delta. -/
theorem ct1_frame (s : State) :
    (commentary_translator_1 s).1.uItteration = none ∧
    (commentary_translator_1 s).1.uFormatIteration = none ∧
    (commentary_translator_1 s).1.uFeedbackHistory = none := by
  unfold commentary_translator_1; split <;> exact ⟨rfl, rfl, rfl⟩

/-- Frame facts for `commentary_translator_2`. -/
theorem ct2_frame (s : State) :
    (commentary_translator_2 s).1.uItteration = none ∧
    (commentary_translator_2 s).1.uFormatIteration = none ∧
    (commentary_translator_2 s).1.uFeedbackHistory = none := by
  unfold commentary_translator_2; split <;> exact ⟨rfl, rfl, rfl⟩

/-- Frame facts for `commentary_translator_3`. -/
theorem ct3_frame (s : State) :
    (commentary_translator_3 s).1.uItteration = none ∧
    (commentary_translator_3 s).1.uFormatIteration = none ∧
    (commentary_translator_3 s).1.uFeedbackHistory = none := by
  unfold commentary_translator_3; split <;> exact ⟨rfl, rfl, rfl⟩

/-- Frame facts for the aggregator. -/
theorem aggregator_frame (saOut cmbOut : String) (s : State) :
    (aggregator saOut cmbOut s).1.uItteration = none ∧
    (aggregator saOut cmbOut s).1.uFormatIteration = none ∧
    (aggregator saOut cmbOut s).1.uFeedbackHistory = none := by
  simp only [aggregator]; repeat' split
  all_goals exact ⟨rfl, rfl, rfl⟩

/-- Frame facts for the glossary stage. -/
theorem glossary_frame (entries : List String) (s : State) :
    (generate_glossary entries s).1.uItteration = none ∧
    (generate_glossary entries s).1.uFormatIteration = none ∧
    (generate_glossary entries s).1.uFeedbackHistory = none :=
  ⟨rfl, rfl, rfl⟩

/-- The fan-out stages and the aggregator leave the two counters and the
feedback history untouched. -/
theorem fanoutAgg_fields (saOut cmbOut : String) (s0 : State) :
    (fanoutAgg saOut cmbOut s0).itteration = s0.itteration ∧
    (fanoutAgg saOut cmbOut s0).format_iteration = s0.format_iteration ∧
    (fanoutAgg saOut cmbOut s0).feedback_history = s0.feedback_history := by
  have e1 := fun s => (ct1_frame s).1
  have e2 := fun s => (ct1_frame s).2.1
  have e3 := fun s => (ct1_frame s).2.2
  have f1 := fun s => (ct2_frame s).1
  have f2 := fun s => (ct2_frame s).2.1
  have f3 := fun s => (ct2_frame s).2.2
  have g1 := fun s => (ct3_frame s).1
  have g2 := fun s => (ct3_frame s).2.1
  have g3 := fun s => (ct3_frame s).2.2
  have a1 := fun s => (aggregator_frame saOut cmbOut s).1
  have a2 := fun s => (aggregator_frame saOut cmbOut s).2.1
  have a3 := fun s => (aggregator_frame saOut cmbOut s).2.2
  refine ⟨?_, ?_, ?_⟩ <;>
    simp only [fanoutAgg, applyUpdate_itteration, applyUpdate_format_iteration,
      applyUpdate_feedback_history, e1, e2, e3, f1, f2, f3, g1, g2, g3,
      a1, a2, a3, Option.getD_none]

/-- C2: for every Work Item built by the Coordinator and every sequence of
evaluator verdicts and generator outputs, the full stage-graph run completes
and at completion the `itteration` counter does not exceed
`MAX_TRANSLATION_ITERATIONS` and `format_iteration` does not exceed
`MAX_FORMAT_ITERATIONS`. -/
theorem c2_iteration_bounds_at_completion :
    ∀ (src skt : String) (c1 c2 c3 : Option String) (lang saOut cmbOut : String)
      (entries : List String) (gens : Nat → GenOut) (lcs : Nat → LanguageCheck)
      (fbs : Nat → Feedback),
      ∃ r, runWorkflow saOut cmbOut entries gens lcs fbs 5
          (mkExample src skt c1 c2 c3 lang) = some r ∧
        r.1.itteration ≤ MAX_TRANSLATION_ITERATIONS ∧
        r.1.format_iteration ≤ MAX_FORMAT_ITERATIONS := by
  intro src skt c1 c2 c3 lang saOut cmbOut entries gens lcs fbs
  obtain ⟨hI, hF, hH⟩ :=
    fanoutAgg_fields saOut cmbOut (mkExample src skt c1 c2 c3 lang)
  obtain ⟨r0, hr0, b1, b2, b3⟩ := runLoop_fresh gens lcs fbs 0
    (fanoutAgg saOut cmbOut (mkExample src skt c1 c2 c3 lang))
    (by rw [hH]; rfl) (by rw [hI]; rfl)
  refine ⟨(applyUpdate r0.1 (generate_glossary entries r0.1).1, r0.2.1, r0.2.2),
    ?_, ?_, ?_⟩
  · unfold runWorkflow
    rw [hr0]
  · have hg : (applyUpdate r0.1 (generate_glossary entries r0.1).1).itteration
        = r0.1.itteration := by
      simp [(glossary_frame entries r0.1).1]
    rw [hg]
    exact b1
  · have hg : (applyUpdate r0.1
        (generate_glossary entries r0.1).1).format_iteration
        = r0.1.format_iteration := by
      simp [(glossary_frame entries r0.1).2.1]
    rw [hg, b2, hF]
    exact Nat.zero_le 1

/-- C4 (counterexample): a Work Item accepted on its very first evaluation
finishes with two feedback entries (the initial-translation record appended
by the synthesis stage plus the accepting evaluation's entry) while the
`itteration` counter is 0, so `len (feedback_history) = content_iteration`
fails at completion. -/
theorem c4_counterexample :
    (runWorkflow "sa" "cmb" ["e"] (fun _ => okayGen) (fun _ => lcInTarget)
      (fun _ => greatVerdict) 5 scenarioItem).map
      (fun r => (r.1.feedback_history.length, r.1.itteration))
      = some (2, 0) ∧ (2 : Nat) ≠ 0 := by
  constructor
  · decide
  · decide

/-- C4 (amended): at completion, the feedback history holds exactly
`itteration + 2` entries: the synthesis stage records one entry for the
initial draft, and the evaluator appends one entry on every evaluation —
including the final accepted one — while `itteration` counts only the
feedback-driven regenerations. -/
theorem c4_feedback_history_length_offset :
    ∀ (src skt : String) (c1 c2 c3 : Option String) (lang saOut cmbOut : String)
      (entries : List String) (gens : Nat → GenOut) (lcs : Nat → LanguageCheck)
      (fbs : Nat → Feedback) (r : State × RouteDecision × Nat),
      runWorkflow saOut cmbOut entries gens lcs fbs 5
        (mkExample src skt c1 c2 c3 lang) = some r →
      r.1.feedback_history.length = r.1.itteration + 2 := by
  intro src skt c1 c2 c3 lang saOut cmbOut entries gens lcs fbs r h
  obtain ⟨hI, hF, hH⟩ :=
    fanoutAgg_fields saOut cmbOut (mkExample src skt c1 c2 c3 lang)
  obtain ⟨r0, hr0, b1, b2, b3⟩ := runLoop_fresh gens lcs fbs 0
    (fanoutAgg saOut cmbOut (mkExample src skt c1 c2 c3 lang))
    (by rw [hH]; rfl) (by rw [hI]; rfl)
  unfold runWorkflow at h
  rw [hr0] at h
  have h' : (applyUpdate r0.1 (generate_glossary entries r0.1).1,
      r0.2.1, r0.2.2) = r := Option.some.inj h
  subst h'
  have hg1 : (applyUpdate r0.1 (generate_glossary entries r0.1).1).itteration
      = r0.1.itteration := by
    simp [(glossary_frame entries r0.1).1]
  have hg2 : (applyUpdate r0.1
      (generate_glossary entries r0.1).1).feedback_history
      = r0.1.feedback_history := by
    simp [(glossary_frame entries r0.1).2.2]
  dsimp only
  rw [hg1, hg2]
  exact b3

theorem c4_feedback_history_length_offset_witness :
    ∃ r, runWorkflow "sa" "cmb" ["e"] (fun _ => okayGen) (fun _ => lcInTarget)
        (fun _ => greatVerdict) 5
        (mkExample "source text" "skt" (some "comm1") none none "English")
        = some r ∧
      r.1.feedback_history.length = r.1.itteration + 2 := by
  cases hr : runWorkflow "sa" "cmb" ["e"] (fun _ => okayGen)
      (fun _ => lcInTarget) (fun _ => greatVerdict) 5
      (mkExample "source text" "skt" (some "comm1") none none "English") with
  | none => exact absurd hr (by decide)
  | some r =>
    exact ⟨r, rfl, c4_feedback_history_length_offset "source text" "skt"
      (some "comm1") none none "English" "sa" "cmb" ["e"] _ _ _ r hr⟩

/-- C5: the aggregator's fan-in policy is a three-case function of how many
upstream contributions are usable.  Zero: one `create_source_analysis` port
call replaces the missing commentary (no failure).  Exactly one: that
contribution is passed through unchanged with no port call.  More than one:
exactly one combination call to the port. -/
theorem c5_aggregator_fanin_policy :
    ∀ (saOut cmbOut : String) (s : State),
      (contributionCount s = 0 →
        aggregator saOut cmbOut s =
          ({ uCombinedCommentary := some saOut,
             uCommentarySource := some "source_analysis" },
           [PortCall.sourceAnalysis])) ∧
      (∀ t, s.commentary1_translation = some t →
        hasContribution s.commentary1_translation = true →
        hasContribution s.commentary2_translation = false →
        hasContribution s.commentary3_translation = false →
        aggregator saOut cmbOut s =
          ({ uCombinedCommentary := some t,
             uCommentarySource := some "traditional" }, [])) ∧
      (∀ t, s.commentary2_translation = some t →
        hasContribution s.commentary1_translation = false →
        hasContribution s.commentary2_translation = true →
        hasContribution s.commentary3_translation = false →
        aggregator saOut cmbOut s =
          ({ uCombinedCommentary := some t,
             uCommentarySource := some "traditional" }, [])) ∧
      (∀ t, s.commentary3_translation = some t →
        hasContribution s.commentary1_translation = false →
        hasContribution s.commentary2_translation = false →
        hasContribution s.commentary3_translation = true →
        aggregator saOut cmbOut s =
          ({ uCombinedCommentary := some t,
             uCommentarySource := some "traditional" }, [])) ∧
      (2 ≤ contributionCount s →
        aggregator saOut cmbOut s =
          ({ uCombinedCommentary := some cmbOut,
             uCommentarySource := some "traditional" },
           [PortCall.combineCommentaries])) := by
  intro saOut cmbOut s
  rcases hc1 : hasContribution s.commentary1_translation with _ | _ <;>
    rcases hc2 : hasContribution s.commentary2_translation with _ | _ <;>
      rcases hc3 : hasContribution s.commentary3_translation with _ | _ <;>
        refine ⟨fun h0 => ?_, fun t ht h1 h2 h3 => ?_, fun t ht h1 h2 h3 => ?_,
          fun t ht h1 h2 h3 => ?_, fun h2le => ?_⟩ <;>
          first
            | (simp [aggregator, hc1, hc2, hc3]; rw [ht]; rfl)
            | (simp [aggregator, hc1, hc2, hc3]; done)
            | (simp [contributionCount, hc1, hc2, hc3] at h0; done)
            | (simp [hc1] at h1; done)
            | (simp [hc2] at h2; done)
            | (simp [hc3] at h3; done)
            | (simp [contributionCount, hc1, hc2, hc3] at h2le; done)

theorem c5_aggregator_fanin_policy_witness :
    aggregator "analysis out" "combined out"
        (mkExample "s" "" none none none "English")
      = ({ uCombinedCommentary := some "analysis out",
           uCommentarySource := some "source_analysis" },
         [PortCall.sourceAnalysis]) ∧
    aggregator "analysis out" "combined out"
        { mkExample "s" "" none none none "English" with
            commentary2_translation := some "the only commentary" }
      = ({ uCombinedCommentary := some "the only commentary",
           uCommentarySource := some "traditional" }, []) ∧
    aggregator "analysis out" "combined out"
        { mkExample "s" "" none none none "English" with
            commentary1_translation := some "first",
            commentary3_translation := some "third" }
      = ({ uCombinedCommentary := some "combined out",
           uCommentarySource := some "traditional" },
         [PortCall.combineCommentaries]) :=
  ⟨(c5_aggregator_fanin_policy "analysis out" "combined out"
      (mkExample "s" "" none none none "English")).1 (by decide),
   (c5_aggregator_fanin_policy "analysis out" "combined out"
      { mkExample "s" "" none none none "English" with
          commentary2_translation := some "the only commentary" }).2.2.1
      "the only commentary" rfl (by decide) (by decide) (by decide),
   (c5_aggregator_fanin_policy "analysis out" "combined out"
      { mkExample "s" "" none none none "English" with
          commentary1_translation := some "first",
          commentary3_translation := some "third" }).2.2.2.2 (by decide)⟩

/-- C6 (counterexample): not every Generation Port call is retried once on a
transient failure.  When the language-check call fails, `llm_call_evaluator`
propagates the failure after a single attempt — the call appears once in the
trace and no immediate retry is issued, contrary to the claimed uniform
policy. -/
theorem c6_counterexample :
    (llm_call_evaluatorE
      { langCheck := Except.error (), verifyFirst := Except.ok ⟨true, "", "", ""⟩,
        verifyRetry := Except.ok ⟨true, "", "", ""⟩,
        evaluateCall := Except.ok ⟨true, "", Grade.okay, "improve", false, ""⟩ }
      midLoopItem).1 = Except.error () ∧
    (llm_call_evaluatorE
      { langCheck := Except.error (), verifyFirst := Except.ok ⟨true, "", "", ""⟩,
        verifyRetry := Except.ok ⟨true, "", "", ""⟩,
        evaluateCall := Except.ok ⟨true, "", Grade.okay, "improve", false, ""⟩ }
      midLoopItem).2.count PortCall.langCheck = 1 := by decide

/-- C6 (amended): only the commentary-verification call inside the evaluator
has the single-immediate-retry policy: on a first failure it is re-invoked
exactly once and a second failure propagates.  Every other Generation Port
call in the evaluator and the synthesis stage is attempted exactly once, its
first failure propagating immediately; no call is retried more than once and
no failure is silently swallowed. -/
theorem c6_single_retry_verification_only :
    ∀ (p : EvalPortE) (q : GenPortE) (s : State),
      ((llm_call_evaluatorE p s).2.count PortCall.verifyCommentary ≤ 2) ∧
      (∀ c, c ≠ PortCall.verifyCommentary →
        (llm_call_evaluatorE p s).2.count c ≤ 1) ∧
      (∀ lc, p.langCheck = Except.ok lc → lc.is_target_language = true →
        p.verifyFirst = Except.error () →
        (llm_call_evaluatorE p s).2.count PortCall.verifyCommentary = 2) ∧
      (∀ lc, p.langCheck = Except.ok lc → lc.is_target_language = true →
        p.verifyFirst = Except.error () → p.verifyRetry = Except.error () →
        (llm_call_evaluatorE p s).1 = Except.error ()) ∧
      (p.langCheck = Except.error () →
        (llm_call_evaluatorE p s).1 = Except.error () ∧
        (llm_call_evaluatorE p s).2 = [PortCall.langCheck]) ∧
      (∀ lc, p.langCheck = Except.ok lc → lc.is_target_language = true →
        p.evaluateCall = Except.error () →
        (llm_call_evaluatorE p s).1 = Except.error ()) ∧
      (∀ c, (translation_generatorE q s).2.count c ≤ 1) ∧
      (s.feedback_history ≠ [] → q.improveMsg = Except.error () →
        (translation_generatorE q s).1 = Except.error ()) ∧
      (s.feedback_history = [] → q.initialThinking = Except.error () →
        (translation_generatorE q s).1 = Except.error ()) := by
  intro p q s
  obtain ⟨plc, pv1, pv2, pev⟩ := p
  obtain ⟨q1, q2, q3, q4, q5, q6⟩ := q
  refine ⟨?_, ?_, ?_, ?_, ?_, ?_, ?_, ?_, ?_⟩
  · rcases plc with ⟨⟩ | lc
    · simp [llm_call_evaluatorE]
    · obtain ⟨ltl, lli⟩ := lc
      rcases ltl with _ | _
      · simp [llm_call_evaluatorE]
      · rcases pv1 with ⟨⟩ | v1
        · rcases pv2 with ⟨⟩ | v2
          · simp [llm_call_evaluatorE]
          · rcases pev with ⟨⟩ | fb <;> simp [llm_call_evaluatorE]
        · rcases pev with ⟨⟩ | fb <;> simp [llm_call_evaluatorE]
  · intro c hc
    rcases plc with ⟨⟩ | lc
    · rcases c <;>
        first | (simp [llm_call_evaluatorE]; done) | exact absurd rfl hc
    · obtain ⟨ltl, lli⟩ := lc
      rcases ltl with _ | _
      · rcases c <;>
          first | (simp [llm_call_evaluatorE]; done) | exact absurd rfl hc
      · rcases pv1 with ⟨⟩ | v1
        · rcases pv2 with ⟨⟩ | v2
          · rcases c <;>
              first | (simp [llm_call_evaluatorE]; done) | exact absurd rfl hc
          · rcases pev with ⟨⟩ | fb <;>
              (rcases c <;>
                first | (simp [llm_call_evaluatorE]; done) | exact absurd rfl hc)
        · rcases pev with ⟨⟩ | fb <;>
            (rcases c <;>
              first | (simp [llm_call_evaluatorE]; done) | exact absurd rfl hc)
  · intro lc h htl hv1
    subst h
    subst hv1
    obtain ⟨ltl, lli⟩ := lc
    rcases ltl with _ | _
    · simp at htl
    · rcases pv2 with ⟨⟩ | v2
      · rfl
      · rcases pev with ⟨⟩ | fb <;> rfl
  · intro lc h htl hv1 hv2
    subst h
    subst hv1
    subst hv2
    obtain ⟨ltl, lli⟩ := lc
    rcases ltl with _ | _
    · simp at htl
    · rfl
  · intro h
    subst h
    exact ⟨rfl, rfl⟩
  · intro lc h htl hev
    subst h
    subst hev
    obtain ⟨ltl, lli⟩ := lc
    rcases ltl with _ | _
    · simp at htl
    · rcases pv1 with ⟨⟩ | v1
      · rcases pv2 with ⟨⟩ | v2 <;> rfl
      · rfl
  · intro c
    by_cases hfb : s.feedback_history ≠ []
    · unfold translation_generatorE
      rw [if_pos hfb]
      rcases q1 with ⟨⟩ | m1
      · rcases c <;> simp
      · rcases q2 with ⟨⟩ | m2 <;> (rcases c <;> simp)
    · unfold translation_generatorE
      rw [if_neg hfb]
      rcases q3 with ⟨⟩ | tc
      · rcases c <;> simp
      · rcases q4 with ⟨⟩ | pm
        · rcases c <;> simp
        · rcases q5 with ⟨⟩ | e1
          · rcases c <;> simp
          · rcases q6 with ⟨⟩ | e2 <;> (rcases c <;> simp)
  · intro hfb h1
    subst h1
    unfold translation_generatorE
    rw [if_pos hfb]
  · intro hfb h3
    subst h3
    unfold translation_generatorE
    rw [if_neg (by simp [hfb])]

theorem c6_single_retry_verification_only_witness :
    ((llm_call_evaluatorE
      { langCheck := Except.ok ⟨true, ""⟩, verifyFirst := Except.error (),
        verifyRetry := Except.ok ⟨true, "", "", ""⟩,
        evaluateCall := Except.ok ⟨true, "", Grade.okay, "improve", false, ""⟩ }
      midLoopItem).2.count PortCall.verifyCommentary = 2) ∧
    ((llm_call_evaluatorE
      { langCheck := Except.ok ⟨true, ""⟩, verifyFirst := Except.error (),
        verifyRetry := Except.error (),
        evaluateCall := Except.ok ⟨true, "", Grade.okay, "improve", false, ""⟩ }
      midLoopItem).1 = Except.error ()) ∧
    ((translation_generatorE
      { improveMsg := Except.error (), extractImproved := Except.ok "d",
        initialThinking := Except.ok ("a", "b"), plainMsg := Except.ok "p",
        extractInitial := Except.ok "e", extractPlain := Except.ok "f" }
      midLoopItem).1 = Except.error ()) :=
  ⟨(c6_single_retry_verification_only
      { langCheck := Except.ok ⟨true, ""⟩, verifyFirst := Except.error (),
        verifyRetry := Except.ok ⟨true, "", "", ""⟩,
        evaluateCall := Except.ok ⟨true, "", Grade.okay, "improve", false, ""⟩ }
      { improveMsg := Except.error (), extractImproved := Except.ok "d",
        initialThinking := Except.ok ("a", "b"), plainMsg := Except.ok "p",
        extractInitial := Except.ok "e", extractPlain := Except.ok "f" }
      midLoopItem).2.2.1 ⟨true, ""⟩ rfl rfl rfl,
   (c6_single_retry_verification_only
      { langCheck := Except.ok ⟨true, ""⟩, verifyFirst := Except.error (),
        verifyRetry := Except.error (),
        evaluateCall := Except.ok ⟨true, "", Grade.okay, "improve", false, ""⟩ }
      { improveMsg := Except.error (), extractImproved := Except.ok "d",
        initialThinking := Except.ok ("a", "b"), plainMsg := Except.ok "p",
        extractInitial := Except.ok "e", extractPlain := Except.ok "f" }
      midLoopItem).2.2.2.1 ⟨true, ""⟩ rfl rfl rfl rfl,
   (c6_single_retry_verification_only
      { langCheck := Except.ok ⟨true, ""⟩, verifyFirst := Except.error (),
        verifyRetry := Except.error (),
        evaluateCall := Except.ok ⟨true, "", Grade.okay, "improve", false, ""⟩ }
      { improveMsg := Except.error (), extractImproved := Except.ok "d",
        initialThinking := Except.ok ("a", "b"), plainMsg := Except.ok "p",
        extractInitial := Except.ok "e", extractPlain := Except.ok "f" }
      midLoopItem).2.2.2.2.2.2.2.1 (by decide) rfl⟩

/-! ## Coordinator lemmas -/

/-- An always-failing oracle never yields a first success. -/
theorem firstSuccess_false (b k : Nat) :
    firstSuccess (fun _ => false) b k = none := by
  induction b generalizing k with
  | zero => rfl
  | succ n ih => simp [firstSuccess, ih]

/-- With every attempt failing and a positive budget, individual processing
writes the item to the failure sink after exactly `m` attempts. -/
theorem processItem_false {α : Type} (a : α) (m : Nat) (h : 1 ≤ m) :
    processItem (fun _ => false) m a = ([], [a], m) := by
  unfold processItem
  rw [if_neg (by omega), firstSuccess_false]

/-- With every attempt failing, the degraded pass fails every item of the
batch in order, each after exactly `m` attempts. -/
theorem individualPass_false {α : Type} (m : Nat) (h : 1 ≤ m) :
    ∀ (b : List α) (i : Nat),
      individualPass (fun _ _ => false) m i b
        = ([], b, List.replicate b.length m) := by
  intro b
  induction b with
  | nil => intro i; rfl
  | cons a rest ih =>
    intro i
    simp [individualPass, processItem_false a m h, ih (i + 1),
      List.replicate_succ]

/-- When every write succeeds, one attempt writes the whole batch. -/
theorem writePrefix_true {α : Type} (b : List α) :
    ∀ i, writePrefix (fun _ => true) i b = (b, true) := by
  induction b with
  | nil => intro i; rfl
  | cons a rest ih => intro i; simp [writePrefix, ih (i + 1)]

/-- With every batched workflow call failing, the batch-level loop writes
nothing and consumes its whole budget, whatever the write outcomes. -/
theorem batchAttemptsLoop_false {α : Type} (wOr : Nat → Nat → Bool)
    (batch : List α) :
    ∀ (fuel a : Nat),
      batchAttemptsLoop (fun _ => false) wOr batch a fuel
        = ([], false, fuel) := by
  intro fuel
  induction fuel with
  | zero => intro a; rfl
  | succ n ih => intro a; simp [batchAttemptsLoop, ih (a + 1)]

/-- When every success-sink write succeeds, the batch-level loop writes the
whole batch on success and nothing on exhaustion. -/
theorem batchAttemptsLoop_true_writes {α : Type} (bOr : Nat → Bool)
    (batch : List α) :
    ∀ (fuel a : Nat),
      ((batchAttemptsLoop bOr (fun _ _ => true) batch a fuel).2.1 = true →
        (batchAttemptsLoop bOr (fun _ _ => true) batch a fuel).1 = batch) ∧
      ((batchAttemptsLoop bOr (fun _ _ => true) batch a fuel).2.1 = false →
        (batchAttemptsLoop bOr (fun _ _ => true) batch a fuel).1 = []) := by
  intro fuel
  induction fuel with
  | zero =>
    intro a
    refine ⟨fun h => ?_, fun _ => rfl⟩
    exact absurd h (by simp [batchAttemptsLoop])
  | succ n ih =>
    intro a
    by_cases hb : bOr a
    · simp [batchAttemptsLoop, hb, writePrefix_true]
    · simp only [batchAttemptsLoop, hb, if_false, Bool.false_eq_true]
      exact ih (a + 1)

/-- With every attempt failing, one batch consumes exactly `m` batch-level
attempts and then exactly `m` attempts per item. -/
theorem processBatch_false {α : Type} (m : Nat) (h : 1 ≤ m)
    (wOr : Nat → Nat → Bool) (b : List α) :
    processBatch (fun _ => false) wOr (fun _ _ => false) m b
      = ([], b, m, List.replicate b.length m) := by
  unfold processBatch
  rw [batchAttemptsLoop_false]
  simp [individualPass_false m h b 0]

/-- With every attempt failing, the whole coordinator run reports `m`
batch-level attempts per batch and `m` item-level attempts per item. -/
theorem coordGo_false {α : Type} (m : Nat) (h : 1 ≤ m)
    (wOr : Nat → Nat → Nat → Bool) :
    ∀ (bs : List (List α)) (bi : Nat),
      coordGo (fun _ _ => false) wOr (fun _ _ _ => false) m bi bs
        = ([], bs.flatten, List.replicate bs.length m,
           bs.map (fun b => List.replicate b.length m)) := by
  intro bs
  induction bs with
  | nil => intro bi; rfl
  | cons b rest ih =>
    intro bi
    simp [coordGo, processBatch_false m h, ih (bi + 1), List.replicate_succ]

/-- One item contributes to at most one sink, at most once. -/
theorem processItem_counts {α : Type} [DecidableEq α] (f : Nat → Bool)
    (m : Nat) (item a : α) :
    (processItem f m item).1.count a + (processItem f m item).2.1.count a
      ≤ [item].count a := by
  unfold processItem
  split
  · simp
  · cases h : firstSuccess f m 0 <;> simp

/-- The degraded pass over a batch contributes each item to at most one sink,
at most once. -/
theorem individualPass_counts {α : Type} [DecidableEq α]
    (iOr : Nat → Nat → Bool) (m : Nat) (a : α) :
    ∀ (b : List α) (i : Nat),
      (individualPass iOr m i b).1.count a
        + (individualPass iOr m i b).2.1.count a ≤ b.count a := by
  intro b
  induction b with
  | nil => intro i; simp [individualPass]
  | cons x rest ih =>
    intro i
    have h1 := processItem_counts (iOr i) m x a
    have h2 := ih (i + 1)
    have h3 : (x :: rest).count a = [x].count a + rest.count a := by
      rw [show (x :: rest) = [x] ++ rest from rfl, List.count_append]
    simp only [individualPass, List.count_append]
    omega

/-- When no success-sink write fails, one batch contributes each of its
items to at most one sink, at most once. -/
theorem processBatch_counts {α : Type} [DecidableEq α] (bOr : Nat → Bool)
    (iOr : Nat → Nat → Bool) (m : Nat) (b : List α) (a : α) :
    (processBatch bOr (fun _ _ => true) iOr m b).1.count a
      + (processBatch bOr (fun _ _ => true) iOr m b).2.1.count a
      ≤ b.count a := by
  unfold processBatch
  rcases hsb : (batchAttemptsLoop bOr (fun _ _ => true) b 0 m).2.1 with _ | _
  · have hw := (batchAttemptsLoop_true_writes bOr b m 0).2 hsb
    have h1 := individualPass_counts iOr m a b 0
    simp [hsb, hw]
    omega
  · have hw := (batchAttemptsLoop_true_writes bOr b m 0).1 hsb
    simp [hsb, hw]

/-- When no success-sink write fails, a whole coordinator run contributes
each occurrence of a value in the batched data to at most one sink, at most
once. -/
theorem coordGo_counts {α : Type} [DecidableEq α] (bOr : Nat → Nat → Bool)
    (iOr : Nat → Nat → Nat → Bool) (m : Nat) (a : α) :
    ∀ (bs : List (List α)) (bi : Nat),
      (coordGo bOr (fun _ _ _ => true) iOr m bi bs).1.count a
        + (coordGo bOr (fun _ _ _ => true) iOr m bi bs).2.1.count a
        ≤ bs.flatten.count a := by
  intro bs
  induction bs with
  | nil => intro bi; simp [coordGo]
  | cons b rest ih =>
    intro bi
    have h1 := processBatch_counts (bOr bi) (iOr bi) m b a
    have h2 := ih (bi + 1)
    simp only [coordGo, List.count_append, List.flatten_cons]
    omega

/-- Chunking with a positive batch size partitions the list. -/
theorem chunksAux_flatten {α : Type} (b : Nat) (hb : 1 ≤ b) :
    ∀ (fuel : Nat) (l : List α), l.length ≤ fuel →
      (chunksAux fuel b l).flatten = l := by
  intro fuel
  induction fuel with
  | zero =>
    intro l hl
    have : l = [] := List.eq_nil_of_length_eq_zero (Nat.le_zero.mp hl)
    subst this
    rfl
  | succ n ih =>
    intro l hl
    cases l with
    | nil => rfl
    | cons x xs =>
      have hlen : ((x :: xs).drop b).length ≤ n := by
        rw [List.length_drop]
        simp only [List.length_cons] at hl ⊢
        omega
      show ((x :: xs).take b :: chunksAux n b ((x :: xs).drop b)).flatten
        = x :: xs
      rw [List.flatten_cons, ih _ hlen, List.take_append_drop]

/-- `chunks` with a positive batch size partitions the data. -/
theorem chunks_flatten {α : Type} (b : Nat) (hb : 1 ≤ b) (l : List α) :
    (chunks b l).flatten = l :=
  chunksAux_flatten b hb l.length l (Nat.le_refl _)

/-- C7 (counterexample): the degraded per-item path does not use an
independent, smaller retry budget.  With `max_retries = 3` and every attempt
failing, each batch consumes exactly 3 batch-level attempts and each item of
the degraded pass exactly 3 item-level attempts — both `while` loops are
bounded by the one `max_retries` parameter, and the per-item budget (3) is
not smaller than the batch budget (3). -/
theorem c7_counterexample :
    run_robust_batch_processing (fun _ _ => false) (fun _ _ _ => true)
        (fun _ _ _ => false) 2 3 [0, 1, 2, 3, 4]
      = ([], [0, 1, 2, 3, 4], [3, 3, 3], [[3, 3], [3, 3], [3]]) ∧
    ¬(3 < 3) := by decide

/-- C7 (amended): the batch path and the degraded per-item path keep separate
retry counters (`batch_retries`, `item_retries`) but both loops are bounded
by the same single `max_retries` parameter of
`run_robust_batch_processing`: with every attempt failing, every batch is
attempted exactly `m` times and every item of every batch exactly `m` times. -/
theorem c7_single_retry_parameter_for_both :
    ∀ {α : Type} (wOr : Nat → Nat → Nat → Bool) (m bs : Nat)
      (data : List α), 1 ≤ m →
      run_robust_batch_processing (fun _ _ => false) wOr
          (fun _ _ _ => false) bs m data
        = ([], (chunks bs data).flatten,
           List.replicate (chunks bs data).length m,
           (chunks bs data).map (fun b => List.replicate b.length m)) := by
  intro α wOr m bs data h
  unfold run_robust_batch_processing
  exact coordGo_false m h wOr _ 0

theorem c7_single_retry_parameter_for_both_witness :
    run_robust_batch_processing (fun _ _ => false) (fun _ _ _ => true)
        (fun _ _ _ => false) 2 3 [0, 1, 2, 3, 4]
      = ([], (chunks 2 [0, 1, 2, 3, 4]).flatten,
         List.replicate (chunks 2 [0, 1, 2, 3, 4]).length 3,
         (chunks 2 [0, 1, 2, 3, 4]).map
           (fun b => List.replicate b.length 3)) :=
  c7_single_retry_parameter_for_both (fun _ _ _ => true) 3 2 [0, 1, 2, 3, 4]
    (by norm_num)

/-- C8 (counterexample): a Work Item can reach both sinks, and the success
sink can record the same item twice.  The success-sink writes of a batch
attempt happen item-by-item inside the retried `try` block and
`convert_state_to_jsonl` re-raises, so an attempt failing mid-write leaves a
durable prefix.  First scenario: the batched workflow call succeeds, the
write of item 0 succeeds and the write of item 1 raises; the batch budget is
exhausted, and in the degraded pass both items fail — item 0 ends up in the
success sink and in the failure sink.  Second scenario: the first attempt
fails mid-write after writing item 0 and the second attempt completes —
item 0 is written to the success sink twice. -/
theorem c8_counterexample :
    run_robust_batch_processing (fun _ _ => true) (fun _ _ i => i == 0)
        (fun _ _ _ => false) 2 1 [0, 1]
      = ([0], [0, 1], [1], [[1, 1]]) ∧
    0 ∈ (run_robust_batch_processing (fun _ _ => true) (fun _ _ i => i == 0)
        (fun _ _ _ => false) 2 1 [0, 1]).1 ∧
    0 ∈ (run_robust_batch_processing (fun _ _ => true) (fun _ _ i => i == 0)
        (fun _ _ _ => false) 2 1 [0, 1]).2.1 ∧
    run_robust_batch_processing (fun _ _ => true)
        (fun _ a i => a == 1 || i == 0) (fun _ _ _ => false) 2 2 [0, 1]
      = ([0, 0, 1], [], [2], [[]]) ∧
    ¬(run_robust_batch_processing (fun _ _ => true)
        (fun _ a i => a == 1 || i == 0) (fun _ _ _ => false) 2 2
        [0, 1]).1.Nodup := by decide

/-- C8 (amended): terminal exclusivity holds provided no success-sink write
itself fails — failures occur only in the workflow invocations (the write
oracle is constantly true).  Under that proviso, for every pair of outcome
oracles for the batch-level and item-level workflow invocations, a
coordinator run over distinct Work Items writes no item to both the success
sink and the failure sink, and writes each item at most once to either.
When a success-sink write raises mid-batch, the already-written prefix stays
durable and the same item can be written again on a retry or also reach the
failure sink. -/
theorem c8_terminal_exclusivity :
    ∀ {α : Type} [inst : DecidableEq α] (bOr : Nat → Nat → Bool)
      (iOr : Nat → Nat → Nat → Bool) (bs m : Nat) (data : List α),
      1 ≤ bs → data.Nodup →
      (run_robust_batch_processing bOr (fun _ _ _ => true) iOr
        bs m data).1.Nodup ∧
      (run_robust_batch_processing bOr (fun _ _ _ => true) iOr
        bs m data).2.1.Nodup ∧
      ∀ a, a ∈ (run_robust_batch_processing bOr (fun _ _ _ => true) iOr
          bs m data).1 →
        a ∉ (run_robust_batch_processing bOr (fun _ _ _ => true) iOr
          bs m data).2.1 := by
  intro α inst bOr iOr bs m data hbs hnd
  have key : ∀ a, (run_robust_batch_processing bOr (fun _ _ _ => true) iOr
      bs m data).1.count a
      + (run_robust_batch_processing bOr (fun _ _ _ => true) iOr
        bs m data).2.1.count a
      ≤ data.count a := by
    intro a
    have h := coordGo_counts bOr iOr m a (chunks bs data) 0
    rw [chunks_flatten bs hbs data] at h
    exact h
  have h1 := List.nodup_iff_count_le_one.mp hnd
  refine ⟨List.nodup_iff_count_le_one.mpr fun a => ?_,
    List.nodup_iff_count_le_one.mpr fun a => ?_, fun a ha hf => ?_⟩
  · have := key a
    have := h1 a
    omega
  · have := key a
    have := h1 a
    omega
  · have hs : 0 < (run_robust_batch_processing bOr (fun _ _ _ => true) iOr
        bs m data).1.count a :=
      List.count_pos_iff.mpr ha
    have hfc : 0 < (run_robust_batch_processing bOr (fun _ _ _ => true) iOr
        bs m data).2.1.count a :=
      List.count_pos_iff.mpr hf
    have := key a
    have := h1 a
    omega

theorem c8_terminal_exclusivity_witness :
    (run_robust_batch_processing (fun bi _ => bi != 1) (fun _ _ _ => true)
        (fun _ i _ => i == 0) 2 2 [1, 2, 3, 4, 5]).1.Nodup ∧
    (run_robust_batch_processing (fun bi _ => bi != 1) (fun _ _ _ => true)
        (fun _ i _ => i == 0) 2 2 [1, 2, 3, 4, 5]).2.1.Nodup ∧
    3 ∉ (run_robust_batch_processing (fun bi _ => bi != 1)
        (fun _ _ _ => true) (fun _ i _ => i == 0) 2 2 [1, 2, 3, 4, 5]).2.1 :=
  ⟨(c8_terminal_exclusivity (fun bi _ => bi != 1) (fun _ i _ => i == 0)
      2 2 [1, 2, 3, 4, 5] (by norm_num) (by decide)).1,
   (c8_terminal_exclusivity (fun bi _ => bi != 1) (fun _ i _ => i == 0)
      2 2 [1, 2, 3, 4, 5] (by norm_num) (by decide)).2.1,
   (c8_terminal_exclusivity (fun bi _ => bi != 1) (fun _ i _ => i == 0)
      2 2 [1, 2, 3, 4, 5] (by norm_num) (by decide)).2.2 3 (by decide)⟩

/-- C1: `route_translation` returns Accept exactly when the grade is `great`
and the format matched; otherwise the ForceAccept branch fires exactly when
`itteration` has reached `MAX_TRANSLATION_ITERATIONS`; otherwise Retry, and
both accepting branches return the same `"Accepted"` edge label (routed to
the enrichment stage).  Scenario: with the evaluator granting `okay` on
every round and the ceiling at 3, the cycle ends via ForceAccept with the
counter at 3, after exactly 4 generator runs (the initial draft plus the 3
feedback-driven regenerations) — no further synthesis round occurs however
much fuel the runtime allows. -/
theorem c1_router_decision_and_scenario :
    (∀ s : State, routeDecision s = RouteDecision.accept ↔
      (s.grade = Grade.great ∧ s.formated = true)) ∧
    (∀ s : State, routeDecision s = RouteDecision.forceAccept ↔
      (¬(s.grade = Grade.great ∧ s.formated = true) ∧
        MAX_TRANSLATION_ITERATIONS ≤ s.itteration)) ∧
    (∀ s : State, routeDecision s = RouteDecision.retry ↔
      (¬(s.grade = Grade.great ∧ s.formated = true) ∧
        s.itteration < MAX_TRANSLATION_ITERATIONS)) ∧
    (∀ s : State, route_translation s = "Accepted" ↔
      routeDecision s ≠ RouteDecision.retry) ∧
    (∀ fuel : Nat, 4 ≤ fuel →
      (runLoop (fun _ => okayGen) (fun _ => lcInTarget) (fun _ => okayVerdict)
        0 fuel scenarioItem).map (fun r => (r.2.1, r.2.2, r.1.itteration))
        = some (RouteDecision.forceAccept, 4, 3)) := by
  refine ⟨fun s => ?_, fun s => ?_, fun s => ?_, fun s => ?_, fun fuel hf => ?_⟩
  · unfold routeDecision
    split_ifs with h1 h2 <;> simp_all
  · unfold routeDecision
    split_ifs with h1 h2 <;> simp_all [ge_iff_le]
  · unfold routeDecision
    split_ifs with h1 h2 <;> simp_all [ge_iff_le, Nat.not_le]
  · unfold route_translation routeDecision
    split_ifs <;> simp_all
  · have hmap : (runLoop (fun _ => okayGen) (fun _ => lcInTarget)
        (fun _ => okayVerdict) 0 4 scenarioItem).map
        (fun r => (r.2.1, r.2.2, r.1.itteration))
        = some (RouteDecision.forceAccept, 4, 3) := by decide
    cases hr : runLoop (fun _ => okayGen) (fun _ => lcInTarget)
        (fun _ => okayVerdict) 0 4 scenarioItem with
    | none => rw [hr] at hmap; exact absurd hmap (by simp)
    | some r =>
      rw [runLoop_fuel_mono _ _ _ 4 fuel 0 scenarioItem r hr hf]
      rw [hr] at hmap
      exact hmap

theorem c1_router_decision_and_scenario_witness :
    (runLoop (fun _ => okayGen) (fun _ => lcInTarget) (fun _ => okayVerdict)
      0 4 scenarioItem).map (fun r => (r.2.1, r.2.2, r.1.itteration))
      = some (RouteDecision.forceAccept, 4, 3) :=
  c1_router_decision_and_scenario.2.2.2.2 4 (by norm_num)

/-- C10: on the initial run (empty `feedback_history`), the delta returned by
`translation_generator` does not touch the `itteration` counter — it writes
the value 1 under the distinct key `iteration` — so merging it leaves
`itteration` at its prior value; the counter first changes on a
feedback-driven regeneration, which sets it to its previous value plus one. -/
theorem c10_initial_run_writes_distinct_iteration_key :
    ∀ (g : GenOut) (s : State),
      (s.feedback_history = [] →
        (translation_generator g s).1.uItteration = none ∧
        (translation_generator g s).1.uIteration = some 1 ∧
        (applyUpdate s (translation_generator g s).1).itteration = s.itteration) ∧
      (s.feedback_history ≠ [] →
        (translation_generator g s).1.uItteration = some (s.itteration + 1)) := by
  intro g s
  constructor
  · intro h
    refine ⟨?_, ?_, ?_⟩ <;> simp [translation_generator, h]
  · intro h
    simp [translation_generator, h]

theorem c10_initial_run_writes_distinct_iteration_key_witness :
    ((translation_generator okayGen scenarioItem).1.uItteration = none ∧
      (translation_generator okayGen scenarioItem).1.uIteration = some 1 ∧
      (applyUpdate scenarioItem
        (translation_generator okayGen scenarioItem).1).itteration
        = scenarioItem.itteration) ∧
    (translation_generator okayGen midLoopItem).1.uItteration
      = some (midLoopItem.itteration + 1) :=
  ⟨(c10_initial_run_writes_distinct_iteration_key okayGen scenarioItem).1 rfl,
   (c10_initial_run_writes_distinct_iteration_key okayGen midLoopItem).2 (by decide)⟩

/-- C3 (counterexample): the synthesis stage itself increments the counter.
On a state with one recorded feedback entry, the delta returned by
`translation_generator` carries `itteration := 1` and merging it changes the
counter — so a stage other than the Router does not leave the iteration
counters unchanged, contrary to the claim. -/
theorem c3_counterexample :
    (translation_generator okayGen midLoopItem).1.uItteration = some 1 ∧
    (applyUpdate midLoopItem
      (translation_generator okayGen midLoopItem).1).itteration
      ≠ midLoopItem.itteration := by decide

/-- C3 (amended): the iteration counters are owned by the synthesis stage,
not the Router.  `route_translation` returns only an edge label and writes no
state; every stage of the graph other than `translation_generator` (fan-out
translators, aggregator, evaluator, glossary) returns a delta that leaves
both `itteration` and `format_iteration` untouched; `translation_generator`
never touches `format_iteration`, and it increments `itteration` by exactly
one precisely on feedback-driven runs. -/
theorem c3_synthesis_stage_owns_counter :
    ∀ (s : State) (saOut cmbOut : String) (entries : List String)
      (g : GenOut) (lc : LanguageCheck) (fb : Feedback),
      ((commentary_translator_1 s).1.uItteration = none ∧
        (commentary_translator_1 s).1.uFormatIteration = none) ∧
      ((commentary_translator_2 s).1.uItteration = none ∧
        (commentary_translator_2 s).1.uFormatIteration = none) ∧
      ((commentary_translator_3 s).1.uItteration = none ∧
        (commentary_translator_3 s).1.uFormatIteration = none) ∧
      ((aggregator saOut cmbOut s).1.uItteration = none ∧
        (aggregator saOut cmbOut s).1.uFormatIteration = none) ∧
      ((llm_call_evaluator lc fb s).1.uItteration = none ∧
        (llm_call_evaluator lc fb s).1.uFormatIteration = none) ∧
      ((generate_glossary entries s).1.uItteration = none ∧
        (generate_glossary entries s).1.uFormatIteration = none) ∧
      (translation_generator g s).1.uFormatIteration = none ∧
      (s.feedback_history = [] →
        (translation_generator g s).1.uItteration = none) ∧
      (s.feedback_history ≠ [] →
        (translation_generator g s).1.uItteration = some (s.itteration + 1)) := by
  intro s saOut cmbOut entries g lc fb
  refine ⟨⟨?_, ?_⟩, ⟨?_, ?_⟩, ⟨?_, ?_⟩, ⟨?_, ?_⟩, ⟨?_, ?_⟩, ⟨?_, ?_⟩, ?_, ?_, ?_⟩
  · unfold commentary_translator_1; split <;> rfl
  · unfold commentary_translator_1; split <;> rfl
  · unfold commentary_translator_2; split <;> rfl
  · unfold commentary_translator_2; split <;> rfl
  · unfold commentary_translator_3; split <;> rfl
  · unfold commentary_translator_3; split <;> rfl
  · simp only [aggregator]; repeat' split
    all_goals rfl
  · simp only [aggregator]; repeat' split
    all_goals rfl
  · simp only [llm_call_evaluator]; split <;> rfl
  · simp only [llm_call_evaluator]; split <;> rfl
  · rfl
  · rfl
  · unfold translation_generator; split <;> rfl
  · intro h; simp [translation_generator, h]
  · intro h; simp [translation_generator, h]

theorem c3_synthesis_stage_owns_counter_witness :
    (translation_generator okayGen midLoopItem).1.uItteration
      = some (midLoopItem.itteration + 1) ∧
    (llm_call_evaluator lcInTarget okayVerdict midLoopItem).1.uItteration = none :=
  ⟨(c3_synthesis_stage_owns_counter midLoopItem "sa" "cmb" ["e"] okayGen
      lcInTarget okayVerdict).2.2.2.2.2.2.2.2 (by decide),
   (c3_synthesis_stage_owns_counter midLoopItem "sa" "cmb" ["e"] okayGen
      lcInTarget okayVerdict).2.2.2.2.1.1⟩

/-- C9: the three fan-out commentary stages are pass-through identities that
never call the Generation Port: each returns an empty call trace; on a
non-empty commentary it returns the original untranslated text as the
`commentaryN_translation` contribution (so after the fan-out the Aggregator
sees the original source-language commentary), and on an empty (falsy)
commentary it returns `None` for both keys. -/
theorem c9_fanout_passthrough_no_port_calls :
    ∀ s : State,
      ((commentary_translator_1 s).2 = [] ∧ (commentary_translator_2 s).2 = [] ∧
        (commentary_translator_3 s).2 = []) ∧
      (falsy s.commentary1 = true →
        (commentary_translator_1 s).1 =
          { uCommentary1 := some none, uCommentary1Translation := some none }) ∧
      (falsy s.commentary1 = false →
        (commentary_translator_1 s).1 =
          { uCommentary1 := some s.commentary1,
            uCommentary1Translation := some s.commentary1 } ∧
        (applyUpdate s (commentary_translator_1 s).1).commentary1_translation
          = s.commentary1) ∧
      (falsy s.commentary2 = true →
        (commentary_translator_2 s).1 =
          { uCommentary2 := some none, uCommentary2Translation := some none }) ∧
      (falsy s.commentary2 = false →
        (commentary_translator_2 s).1 =
          { uCommentary2 := some s.commentary2,
            uCommentary2Translation := some s.commentary2 } ∧
        (applyUpdate s (commentary_translator_2 s).1).commentary2_translation
          = s.commentary2) ∧
      (falsy s.commentary3 = true →
        (commentary_translator_3 s).1 =
          { uCommentary3 := some none, uCommentary3Translation := some none }) ∧
      (falsy s.commentary3 = false →
        (commentary_translator_3 s).1 =
          { uCommentary3 := some s.commentary3,
            uCommentary3Translation := some s.commentary3 } ∧
        (applyUpdate s (commentary_translator_3 s).1).commentary3_translation
          = s.commentary3) := by
  intro s
  refine ⟨⟨?_, ?_, ?_⟩, fun h => ?_, fun h => ⟨?_, ?_⟩, fun h => ?_,
    fun h => ⟨?_, ?_⟩, fun h => ?_, fun h => ⟨?_, ?_⟩⟩
  · unfold commentary_translator_1; split <;> rfl
  · unfold commentary_translator_2; split <;> rfl
  · unfold commentary_translator_3; split <;> rfl
  · simp [commentary_translator_1, h]
  · simp [commentary_translator_1, h]
  · simp [commentary_translator_1, h]
  · simp [commentary_translator_2, h]
  · simp [commentary_translator_2, h]
  · simp [commentary_translator_2, h]
  · simp [commentary_translator_3, h]
  · simp [commentary_translator_3, h]
  · simp [commentary_translator_3, h]

theorem c9_fanout_passthrough_no_port_calls_witness :
    (commentary_translator_1 scenarioItem).2 = [] ∧
    (commentary_translator_1 scenarioItem).1 =
      { uCommentary1 := some (some "comm1"),
        uCommentary1Translation := some (some "comm1") } ∧
    (commentary_translator_2 scenarioItem).1 =
      { uCommentary2 := some none, uCommentary2Translation := some none } :=
  ⟨(c9_fanout_passthrough_no_port_calls scenarioItem).1.1,
   ((c9_fanout_passthrough_no_port_calls scenarioItem).2.2.1 (by decide)).1,
   (c9_fanout_passthrough_no_port_calls scenarioItem).2.2.2.1 (by decide)⟩

end TransWF
